import Mathlib

/-!
Shallow embedding of the django-flag flagging subsystem (`flag/models.py`).

The ORM is modelled by an explicit `Database` record holding the persisted
`FlaggedContent` rows and `FlagInstance` rows; fallible save paths return
`Except FlagException`.  Per-content-type configuration values (resolved by
`flag.settings.get_for_model`, which lives outside the modelled source) are
passed in as an explicit `FlagSettings` record, matching the keys the code
reads through `content_settings`.  A raised exception aborts the logical
operation, so an `Except.error` result carries no updated state.
-/

/-- Exceptions raised by `flag/models.py` (declared in `flag.exceptions`),
each carrying its message string. -/
inductive FlagException where
  | ModelCannotBeFlaggedException (message : String)
  | ContentFlaggedEnoughException (message : String)
  | ContentAlreadyFlaggedByUserException (message : String)
  | FlagCommentException (message : String)
deriving Repr, DecidableEq

/-- The per-content-type configuration values the code reads via
`content_settings` / `flag_settings`. -/
structure FlagSettings where
  MODELS : Option (List String)
  LIMIT_FOR_OBJECT : Option Int
  LIMIT_SAME_OBJECT_FOR_USER : Option Int
  ALLOW_COMMENTS : Bool
  SEND_MAILS : Bool
  SEND_MAILS_TO : List String
  SEND_MAILS_FROM : String
  SEND_MAILS_RULES : List (Nat × Nat)
  STATUSES : List (Nat × String)
deriving Repr, DecidableEq

/-- Python truthiness of an optional integer setting (`if not limit`):
`None` and `0` are falsy. -/
def truthy : Option Int → Bool
  | none => false
  | some n => n != 0

/-- Python truthiness of an optional text field (`if not self.comment`):
`None` and the empty string are falsy. -/
def pythonTruthyStr : Option String → Bool
  | none => false
  | some s => s != ""

/-- A `FlaggedContent` row: the aggregate record for one flagged content
item.  The generic foreign key is modelled as the pair
(`contentType` tag, `objectId`); user foreign keys are user ids. -/
structure FlaggedContent where
  id : Nat
  contentType : String
  objectId : Nat
  creator : Option Nat
  status : Nat
  moderator : Option Nat
  count : Nat
deriving Repr, DecidableEq

/-- A `FlagInstance` row: one flag event.  `id` is `none` until the row is
first persisted (the Django `not bool(self.id)` newness test). -/
structure FlagInstance where
  id : Option Nat
  flaggedContentId : Nat
  user : Nat
  comment : Option String
  status : Nat
deriving Repr, DecidableEq

/-- The persistence layer: the stored rows plus the id counters the
database would use for newly inserted rows. -/
structure Database where
  nextContentId : Nat
  nextFlagId : Nat
  contents : List FlaggedContent
  flags : List FlagInstance
deriving Repr, DecidableEq

/-- An empty database. -/
def Database.empty : Database := ⟨1, 1, [], []⟩

/-- Row filter used by `get_or_create` on (`content_type`, `object_id`). -/
def matchesObject (contentType : String) (objectId : Nat) (c : FlaggedContent) : Bool :=
  decide (c.contentType = contentType ∧ c.objectId = objectId)

/-- The `flag_instances` related manager: all flag rows belonging to a
given `FlaggedContent` id. -/
def contentFlags (db : Database) (cid : Nat) : List FlagInstance :=
  db.flags.filter (fun f => decide (f.flaggedContentId = cid))

/-- Replace the stored copy of a `FlaggedContent` row by id (a save of an
already-inserted row). -/
def updateContent (db : Database) (fc : FlaggedContent) : Database :=
  { db with contents := db.contents.map (fun c => if c.id = fc.id then fc else c) }

/-- `FlaggedContent.count_flags_by_user`: number of the flag
instances by the given user with `status == 1`. -/
def count_flags_by_user (instances : List FlagInstance) (user : Nat) : Nat :=
  (instances.filter (fun f => decide (f.user = user ∧ f.status = 1))).length

/-- `FlaggedContent.can_be_flagged`: `LIMIT_FOR_OBJECT` is falsy, or
`count < limit`. -/
def can_be_flagged (s : FlagSettings) (fc : FlaggedContent) : Bool :=
  match s.LIMIT_FOR_OBJECT with
  | none => true
  | some limit => if limit = 0 then true else decide ((fc.count : Int) < limit)

/-- `FlaggedContent.assert_can_be_flagged`. -/
def assert_can_be_flagged (s : FlagSettings) (fc : FlaggedContent) :
    Except FlagException Unit :=
  if can_be_flagged s fc then .ok ()
  else .error (.ContentFlaggedEnoughException "Flag limit raised")

/-- `FlaggedContent.can_be_flagged_by_user`. -/
def can_be_flagged_by_user (s : FlagSettings) (fc : FlaggedContent)
    (instances : List FlagInstance) (user : Nat) : Bool :=
  if !(can_be_flagged s fc) then false
  else
    match s.LIMIT_SAME_OBJECT_FOR_USER with
    | none => true
    | some limit =>
      if limit = 0 then true
      else decide ((count_flags_by_user instances user : Int) < limit)

/-- The `ungettext` message of `ContentAlreadyFlaggedByUserException`,
pluralized on the current flag count of the user. -/
def already_flagged_message (count : Nat) : String :=
  if count = 1 then "You already flagged this"
  else "You already flagged this " ++ toString count ++ " times"

/-- `FlaggedContent.assert_can_be_flagged_by_user`: re-raises the object
limit exception first, then checks the per-user limit. -/
def assert_can_be_flagged_by_user (s : FlagSettings) (fc : FlaggedContent)
    (instances : List FlagInstance) (user : Nat) : Except FlagException Unit :=
  match assert_can_be_flagged s fc with
  | .error e => .error e
  | .ok () =>
    match s.LIMIT_SAME_OBJECT_FOR_USER with
    | none => .ok ()
    | some limit =>
      if limit = 0 then .ok ()
      else
        let count := count_flags_by_user instances user
        if (count : Int) ≥ limit then
          .error (.ContentAlreadyFlaggedByUserException (already_flagged_message count))
        else .ok ()

/-- `FlaggedContentManager.model_can_be_flagged`: true when no `MODELS`
allow-list is configured or the content type tag is listed. -/
def model_can_be_flagged (s : FlagSettings) (contentType : String) : Bool :=
  match s.MODELS with
  | none => true
  | some models => models.contains contentType

/-- `FlaggedContent.save`: asserts the model can be flagged, then persists.
The assertion runs on every save, whether or not the row is new. -/
def FlaggedContent.save (s : FlagSettings) (fc : FlaggedContent) :
    Except FlagException FlaggedContent :=
  if model_can_be_flagged s fc.contentType then .ok fc
  else .error (.ModelCannotBeFlaggedException "This model cannot be flagged")

/-- The rule walk of `flag_added`: scan `SEND_MAILS_RULES` keeping the last
rule whose `min_count` is not above `count`, stopping at the first rule
whose `min_count` exceeds it (the `break`). -/
def selectRuleFrom (count : Nat) : List (Nat × Nat) → (Nat × Nat) → (Nat × Nat)
  | [], cur => cur
  | (minCount, step) :: rest, cur =>
    if count ≥ minCount then selectRuleFrom count rest (minCount, step) else cur

/-- The selected (`current_min_count`, `current_step`) pair, starting
from `(0, 0)`. -/
def selectRule (rules : List (Nat × Nat)) (count : Nat) : Nat × Nat :=
  selectRuleFrom count rules (0, 0)

/-- The first clause of the `really_send_mails` computation in
`flag_added` (`limit and self.count >= limit`): a truthy per-object limit
is configured and reached. -/
def object_limit_reached (s : FlagSettings) (count : Nat) : Bool :=
  match s.LIMIT_FOR_OBJECT with
  | none => false
  | some limit => limit != 0 && decide ((count : Int) ≥ limit)

/-- The `really_send_mails` decision of `flag_added`: true when a truthy
object limit is reached, else when the selected rule has a step and
`(count - min_count) % step == 0`. -/
def really_send_mails (s : FlagSettings) (count : Nat) : Bool :=
  if object_limit_reached s count then true
  else
    let sel := selectRule s.SEND_MAILS_RULES count
    sel.2 != 0 && (count - sel.1) % sel.2 == 0

/-- Whether `FlagInstance.send_mails` actually dispatches: it returns
without sending unless `SEND_MAILS` is enabled and a recipient list is
configured. -/
def send_mails_dispatches (s : FlagSettings) : Bool :=
  s.SEND_MAILS && !s.SEND_MAILS_TO.isEmpty

/-- Observable side effects of one `flag_added` call: whether the
`content_flagged` signal was sent, whether `flag_instance.send_mails()`
was called, and whether that call actually dispatched mail. -/
structure FlagEffects where
  signalSent : Bool
  mailRuleFired : Bool
  mailDispatched : Bool
deriving Repr, DecidableEq

/-- `FlaggedContent.flag_added`: if the aggregate status is 1, increment
`count` by one through a save of the aggregate and reload the
authoritative value; then send the signal if requested, and call
`send_mails()` when requested, enabled, and the threshold rule fires. -/
def flag_added (s : FlagSettings) (db : Database) (fc : FlaggedContent)
    (send_signal send_mails : Bool) :
    Except FlagException (FlaggedContent × Database × FlagEffects) :=
  let step1 : Except FlagException (FlaggedContent × Database) :=
    if fc.status = 1 then
      match FlaggedContent.save s { fc with count := fc.count + 1 } with
      | .error e => .error e
      | .ok fc2 => .ok (fc2, updateContent db fc2)
    else .ok (fc, db)
  match step1 with
  | .error e => .error e
  | .ok (fc2, db2) =>
    let fired := send_mails && s.SEND_MAILS && really_send_mails s fc2.count
    let dispatched := fired && send_mails_dispatches s
    .ok (fc2, db2, ⟨send_signal, fired, dispatched⟩)

/-- Everything a successful `FlagInstance.save` produces: the persisted
instance, the in-memory aggregate, the new database state, whether
`flag_added` was invoked on the parent, and its effects. -/
structure SaveOutcome where
  flagInst : FlagInstance
  content : FlaggedContent
  db : Database
  flagAddedCalled : Bool
  effects : FlagEffects
deriving Repr, DecidableEq

/-- `FlagInstance.save`: on a new row, check the user may flag (only when
`status == 1`), check the comment policy, persist, then tell the parent
aggregate via `flag_added`.  Saves of existing rows just persist. -/
def FlagInstance.save (s : FlagSettings) (db : Database) (fc : FlaggedContent)
    (fi : FlagInstance) (send_signal send_mails : Bool) :
    Except FlagException SaveOutcome :=
  let is_new := fi.id.isNone
  let check1 : Except FlagException Unit :=
    if is_new ∧ fi.status = 1 then
      assert_can_be_flagged_by_user s fc (contentFlags db fc.id) fi.user
    else .ok ()
  match check1 with
  | .error e => .error e
  | .ok () =>
    let check2 : Except FlagException Unit :=
      if is_new then
        if s.ALLOW_COMMENTS && !(pythonTruthyStr fi.comment) then
          .error (.FlagCommentException "You must add a comment")
        else if !s.ALLOW_COMMENTS && pythonTruthyStr fi.comment then
          .error (.FlagCommentException "You are not allowed to add a comment")
        else .ok ()
      else .ok ()
    match check2 with
    | .error e => .error e
    | .ok () =>
      if is_new then
        let fi2 : FlagInstance := { fi with id := some db.nextFlagId }
        let db2 : Database :=
          { db with nextFlagId := db.nextFlagId + 1, flags := db.flags ++ [fi2] }
        match flag_added s db2 fc send_signal send_mails with
        | .error e => .error e
        | .ok (fc2, db3, eff) => .ok ⟨fi2, fc2, db3, true, eff⟩
      else
        let db2 : Database :=
          { db with flags := db.flags.map (fun g => if g.id = fi.id then fi else g) }
        .ok ⟨fi, fc, db2, false, ⟨false, false, false⟩⟩

/-- `FlaggedContentManager.get_or_create_for_object`: look the aggregate up
by (`content_type`, `object_id`); when absent, create it, applying
`content_creator` and `status` only as creation defaults. -/
def FlaggedContentManager.get_or_create_for_object (s : FlagSettings) (db : Database)
    (contentType : String) (objectId : Nat) (content_creator : Option Nat)
    (status : Option Nat) : Except FlagException (FlaggedContent × Bool × Database) :=
  match db.contents.find? (matchesObject contentType objectId) with
  | some fc => .ok (fc, false, db)
  | none =>
    let fc : FlaggedContent :=
      { id := db.nextContentId, contentType := contentType, objectId := objectId,
        creator := content_creator, status := status.getD 1, moderator := none,
        count := 0 }
    match FlaggedContent.save s fc with
    | .error e => .error e
    | .ok fc2 =>
      .ok (fc2, true,
        { db with nextContentId := db.nextContentId + 1,
                  contents := db.contents ++ [fc2] })

/-- The default status code, `flag_settings.STATUSES[0][0]`. -/
def default_status (s : FlagSettings) : Nat :=
  (s.STATUSES.headD (1, "flagged")).1

/-- The status/moderator update of `FlagInstanceManager.add`: a truthy
explicit status is written to the aggregate, and when it differs from the
default status the acting user is recorded as moderator. -/
def apply_status (s : FlagSettings) (user : Nat) (fc : FlaggedContent)
    (status : Option Nat) : FlaggedContent :=
  match status with
  | some st =>
    if st = 0 then fc
    else if st = default_status s then { fc with status := st }
    else { fc with status := st, moderator := some user }
  | none => fc

/-- The status given to the new flag instance by `FlagInstanceManager.add`:
the explicit status if truthy, else the current aggregate status. -/
def inst_status (fc : FlaggedContent) (status : Option Nat) : Nat :=
  match status with
  | some st => if st = 0 then fc.status else st
  | none => fc.status

/-- `FlagInstanceManager.add`: get or create the aggregate, apply an
explicit status (recording the moderator when it is not the default),
save the aggregate unconditionally, then build and save the flag
instance with the explicit status if truthy, else the aggregate one. -/
def FlagInstanceManager.add (s : FlagSettings) (db : Database) (user : Nat)
    (contentType : String) (objectId : Nat) (content_creator : Option Nat)
    (comment : Option String) (status : Option Nat)
    (send_signal send_mails : Bool) : Except FlagException SaveOutcome :=
  match FlaggedContentManager.get_or_create_for_object s db contentType objectId
      content_creator status with
  | .error e => .error e
  | .ok (fc, _created, db1) =>
    match FlaggedContent.save s (apply_status s user fc status) with
    | .error e => .error e
    | .ok fc3 =>
      let db2 := updateContent db1 fc3
      let fi : FlagInstance :=
        { id := none, flaggedContentId := fc3.id, user := user,
          comment := comment, status := inst_status fc3 status }
      FlagInstance.save s db2 fc3 fi send_signal send_mails

/-- One request to the add-flag use case. -/
structure AddRequest where
  user : Nat
  contentType : String
  objectId : Nat
  creator : Option Nat
  comment : Option String
  status : Option Nat
  send_signal : Bool
  send_mails : Bool
deriving Repr, DecidableEq

/-- Run `FlagInstanceManager.add` on a request record. -/
def addFlagReq (s : FlagSettings) (db : Database) (r : AddRequest) :
    Except FlagException SaveOutcome :=
  FlagInstanceManager.add s db r.user r.contentType r.objectId r.creator
    r.comment r.status r.send_signal r.send_mails

/-- Apply one add-flag request to the database; a failed request leaves
the state unchanged (the operation is one unit of work). -/
def applyAdd (s : FlagSettings) (db : Database) (r : AddRequest) : Database :=
  match addFlagReq s db r with
  | .ok out => out.db
  | .error _ => db

/-- Apply a sequence of add-flag requests. -/
def runAdds (s : FlagSettings) (db : Database) (reqs : List AddRequest) : Database :=
  reqs.foldl (applyAdd s) db

/-- Number of stored flag rows with `status == 1` belonging to a given
`FlaggedContent` id. -/
def statusOneFlags (flags : List FlagInstance) (cid : Nat) : Nat :=
  (flags.filter (fun f => decide (f.flaggedContentId = cid ∧ f.status = 1))).length

/-- The specified counter invariant: the `count` of every stored aggregate
equals the number of its stored flag instances with `status == 1`. -/
@[reducible] def countInv (db : Database) : Prop :=
  ∀ c ∈ db.contents, c.count = statusOneFlags db.flags c.id

/-- Database well-formedness: stored content ids are below the id counter
and determine their row, and every flag row points at an id below the
counter. -/
@[reducible] def wfDb (db : Database) : Prop :=
  (∀ c ∈ db.contents, c.id < db.nextContentId) ∧
  (∀ c1 ∈ db.contents, ∀ c2 ∈ db.contents, c1.id = c2.id → c1 = c2) ∧
  (∀ f ∈ db.flags, f.flaggedContentId < db.nextContentId)

/-- The `count` stored for a content reference, zero when no aggregate
exists yet. -/
def targetCount (db : Database) (contentType : String) (objectId : Nat) : Nat :=
  match db.contents.find? (matchesObject contentType objectId) with
  | some fc => fc.count
  | none => 0

/-- Modelled from the spec: the mail-threshold rule selection as the spec
words it — walk the whole ordered rule list, tracking the last rule whose
`min_count <= count` (no early stop). -/
def spec_select_rule (rules : List (Nat × Nat)) (count : Nat) : Nat × Nat :=
  rules.foldl (fun cur p => if p.1 ≤ count then p else cur) (0, 0)

/-- Modelled from the spec: a rule with a step is selected and
`(count - min_count) mod step == 0`. -/
def spec_rule_fires (rules : List (Nat × Nat)) (count : Nat) : Bool :=
  (spec_select_rule rules count).2 != 0 &&
    (count - (spec_select_rule rules count).1) % (spec_select_rule rules count).2 == 0

/-- Whether an instance save result is a success. -/
def savedOk : Except FlagException SaveOutcome → Bool
  | .ok _ => true
  | .error _ => false

/-- Whether an instance save result invoked `flag_added` on the parent. -/
def flagAddedWasCalled : Except FlagException SaveOutcome → Bool
  | .ok out => out.flagAddedCalled
  | .error _ => false

/-- The comment policy accepts exactly when comment presence matches
`ALLOW_COMMENTS`. -/
def commentPolicyOk (s : FlagSettings) (fi : FlagInstance) : Bool :=
  s.ALLOW_COMMENTS == pythonTruthyStr fi.comment

/-- Decidable equality of operation results, so that concrete runs can be
checked by evaluation. -/
instance {ε α : Type} [DecidableEq ε] [DecidableEq α] : DecidableEq (Except ε α) :=
  fun x y =>
    match x, y with
    | .ok a, .ok b =>
      if h : a = b then .isTrue (congrArg Except.ok h)
      else .isFalse (fun hc => h (by injection hc))
    | .error a, .error b =>
      if h : a = b then .isTrue (congrArg Except.error h)
      else .isFalse (fun hc => h (by injection hc))
    | .ok _, .error _ => .isFalse (fun hc => Except.noConfusion hc)
    | .error _, .ok _ => .isFalse (fun hc => Except.noConfusion hc)

/-! Helper lemmas -/

/-- A successful `FlaggedContent.save` returns the row unchanged and
certifies the model check. -/
theorem FlaggedContent_save_ok {s : FlagSettings} {fc fc2 : FlaggedContent}
    (h : FlaggedContent.save s fc = .ok fc2) :
    fc2 = fc ∧ model_can_be_flagged s fc.contentType = true := by
  unfold FlaggedContent.save at h
  by_cases hm : model_can_be_flagged s fc.contentType = true
  · rw [if_pos hm] at h
    cases h
    exact ⟨rfl, hm⟩
  · rw [if_neg hm] at h
    cases h

/-- A truthy model check makes `FlaggedContent.save` succeed. -/
theorem FlaggedContent_save_of_ok (s : FlagSettings) (fc : FlaggedContent)
    (h : model_can_be_flagged s fc.contentType = true) :
    FlaggedContent.save s fc = .ok fc := by
  unfold FlaggedContent.save
  rw [if_pos h]

/-! C8 -/

/-- C8: `can_be_flagged` returns true whenever no truthy per-object limit
is configured (so in particular always, whatever the count, when the
setting is absent or falsy); when a truthy limit `l` is configured it
returns true exactly when `count < l`. -/
theorem can_be_flagged_spec :
    ∀ (s : FlagSettings) (fc : FlaggedContent),
      (truthy s.LIMIT_FOR_OBJECT = false → can_be_flagged s fc = true) ∧
      (∀ l : Int, s.LIMIT_FOR_OBJECT = some l → l ≠ 0 →
        (can_be_flagged s fc = true ↔ (fc.count : Int) < l)) := by
  intro s fc
  constructor
  · intro h
    unfold can_be_flagged
    cases hl : s.LIMIT_FOR_OBJECT with
    | none => rfl
    | some l =>
      rw [hl] at h
      simp only [truthy, bne_eq_false_iff_eq] at h
      simp [h]
  · intro l hl hne
    unfold can_be_flagged
    rw [hl]
    simp [hne]

/-- Witness for C8 at a configured limit of 3 and count 2. -/
theorem can_be_flagged_spec_witness :
    ((⟨none, some 3, none, false, false, [], "", [], []⟩ : FlagSettings).LIMIT_FOR_OBJECT =
      some 3) ∧ ((3 : Int) ≠ 0) ∧
    (can_be_flagged ⟨none, some 3, none, false, false, [], "", [], []⟩
        ⟨1, "a.b", 2, none, 1, none, 2⟩ = true ↔ ((2 : Nat) : Int) < 3) :=
  ⟨rfl, by decide,
    (can_be_flagged_spec ⟨none, some 3, none, false, false, [], "", [], []⟩
      ⟨1, "a.b", 2, none, 1, none, 2⟩).2 3 rfl (by decide)⟩

/-! C10 -/

/-- C10: a configured limit of 0 behaves exactly like no configured limit,
for both the per-object and the per-user checks and their assertions, so
a zero limit means unlimited flagging. -/
theorem falsy_limit_means_unlimited :
    ∀ (s : FlagSettings) (fc : FlaggedContent) (instances : List FlagInstance)
      (user : Nat),
      (can_be_flagged { s with LIMIT_FOR_OBJECT := some 0 } fc =
        can_be_flagged { s with LIMIT_FOR_OBJECT := none } fc) ∧
      (can_be_flagged_by_user { s with LIMIT_SAME_OBJECT_FOR_USER := some 0 } fc
          instances user =
        can_be_flagged_by_user { s with LIMIT_SAME_OBJECT_FOR_USER := none } fc
          instances user) ∧
      (can_be_flagged { s with LIMIT_FOR_OBJECT := some 0 } fc = true) ∧
      (assert_can_be_flagged { s with LIMIT_FOR_OBJECT := some 0 } fc = .ok ()) ∧
      (can_be_flagged_by_user
          { s with LIMIT_FOR_OBJECT := some 0, LIMIT_SAME_OBJECT_FOR_USER := some 0 }
          fc instances user = true) ∧
      (assert_can_be_flagged_by_user
          { s with LIMIT_FOR_OBJECT := some 0, LIMIT_SAME_OBJECT_FOR_USER := some 0 }
          fc instances user = .ok ()) := by
  intro s fc instances user
  refine ⟨?_, ?_, ?_, ?_, ?_, ?_⟩ <;>
    simp [can_be_flagged, can_be_flagged_by_user, assert_can_be_flagged,
      assert_can_be_flagged_by_user]

/-! C3 -/

/-- C3: `assert_can_be_flagged_by_user` checks the object-level limit
first and fails with the `ContentFlaggedEnoughException`; only when the
object check passes is the per-user limit evaluated, failing with
`ContentAlreadyFlaggedByUserException` carrying the pluralized message
built from the current status-1 flag count of the user once that count has
reached a truthy `LIMIT_SAME_OBJECT_FOR_USER`; otherwise it succeeds. -/
theorem assert_can_be_flagged_by_user_spec :
    ∀ (s : FlagSettings) (fc : FlaggedContent) (instances : List FlagInstance)
      (user : Nat),
      (can_be_flagged s fc = false →
        assert_can_be_flagged_by_user s fc instances user =
          .error (.ContentFlaggedEnoughException "Flag limit raised")) ∧
      (can_be_flagged s fc = true →
        ∀ l : Int, s.LIMIT_SAME_OBJECT_FOR_USER = some l → l ≠ 0 →
          (count_flags_by_user instances user : Int) ≥ l →
          assert_can_be_flagged_by_user s fc instances user =
            .error (.ContentAlreadyFlaggedByUserException
              (already_flagged_message (count_flags_by_user instances user)))) ∧
      (can_be_flagged_by_user s fc instances user = true →
        assert_can_be_flagged_by_user s fc instances user = .ok ()) := by
  intro s fc instances user
  refine ⟨?_, ?_, ?_⟩
  · intro h
    simp [assert_can_be_flagged_by_user, assert_can_be_flagged, h]
  · intro h l hl hne hge
    simp [assert_can_be_flagged_by_user, assert_can_be_flagged, h, hl, hne, hge]
  · intro h
    by_cases hc : can_be_flagged s fc = true
    · simp only [can_be_flagged_by_user, hc, Bool.not_true, Bool.false_eq_true,
        if_false] at h
      cases hl : s.LIMIT_SAME_OBJECT_FOR_USER with
      | none => simp [assert_can_be_flagged_by_user, assert_can_be_flagged, hc, hl]
      | some l =>
        rw [hl] at h
        by_cases h0 : l = 0
        · simp [assert_can_be_flagged_by_user, assert_can_be_flagged, hc, hl, h0]
        · have hlt : (count_flags_by_user instances user : Int) < l := by
            simpa [h0] using h
          simp [assert_can_be_flagged_by_user, assert_can_be_flagged, hc, hl, h0,
            not_le.mpr hlt]
    · rw [can_be_flagged_by_user, if_pos] at h
      · cases h
      · simp [Bool.not_eq_true] at hc ⊢
        exact hc

/-- Witness for C3 with `LIMIT_SAME_OBJECT_FOR_USER = 2` and two stored
status-1 flags by user 1: the next flag of user 1 is rejected with the
pluralized message, and one by user 2 is allowed. -/
theorem assert_can_be_flagged_by_user_spec_witness :
    (assert_can_be_flagged_by_user ⟨none, none, some 2, false, false, [], "", [], []⟩
        ⟨1, "a.b", 2, none, 1, none, 2⟩
        [⟨some 1, 1, 1, none, 1⟩, ⟨some 2, 1, 1, none, 1⟩] 1 =
      .error (.ContentAlreadyFlaggedByUserException "You already flagged this 2 times")) ∧
    (assert_can_be_flagged_by_user ⟨none, none, some 2, false, false, [], "", [], []⟩
        ⟨1, "a.b", 2, none, 1, none, 2⟩
        [⟨some 1, 1, 1, none, 1⟩, ⟨some 2, 1, 1, none, 1⟩] 2 = .ok ()) :=
  ⟨(assert_can_be_flagged_by_user_spec _ _ _ 1).2.1 (by decide) 2 rfl (by decide)
      (by decide),
   (assert_can_be_flagged_by_user_spec _ _ _ 2).2.2 (by decide)⟩

/-! C7 -/

/-- C7: on a new `FlagInstance` that passed the (earlier, §7-ordered)
limit assertion when applicable, the comment policy is enforced for every
status: a required-but-missing comment fails the save with the first
`FlagCommentException`, a disallowed-but-present comment with the second.
The error return carries no updated database, so nothing is persisted. -/
theorem comment_policy_enforced :
    ∀ (s : FlagSettings) (db : Database) (fc : FlaggedContent) (fi : FlagInstance)
      (sg sm : Bool),
      fi.id = none →
      (fi.status = 1 →
        assert_can_be_flagged_by_user s fc (contentFlags db fc.id) fi.user = .ok ()) →
      ((s.ALLOW_COMMENTS = true → pythonTruthyStr fi.comment = false →
        FlagInstance.save s db fc fi sg sm =
          .error (.FlagCommentException "You must add a comment")) ∧
      (s.ALLOW_COMMENTS = false → pythonTruthyStr fi.comment = true →
        FlagInstance.save s db fc fi sg sm =
          .error (.FlagCommentException "You are not allowed to add a comment"))) := by
  intro s db fc fi sg sm hnew hassert
  have hisnew : fi.id.isNone = true := by rw [hnew]; rfl
  have hcheck1 :
      (if fi.status = 1 then
        assert_can_be_flagged_by_user s fc (contentFlags db fc.id) fi.user
      else Except.ok ()) = Except.ok () := by
    by_cases hst : fi.status = 1
    · rw [if_pos hst]
      exact hassert hst
    · rw [if_neg hst]
  constructor
  · intro hallow hcom
    simp [FlagInstance.save, hcheck1, hisnew, hallow, hcom]
  · intro hallow hcom
    simp [FlagInstance.save, hcheck1, hisnew, hallow, hcom]

/-- Witness for C7: `ALLOW_COMMENTS` on, no comment, status-2 flag. -/
theorem comment_policy_enforced_witness :
    ((⟨none, none, none, true, false, [], "", [], []⟩ : FlagSettings).ALLOW_COMMENTS
      = true) ∧
    (FlagInstance.save ⟨none, none, none, true, false, [], "", [], []⟩
        ⟨2, 1, [⟨1, "a.b", 7, none, 2, none, 0⟩], []⟩ ⟨1, "a.b", 7, none, 2, none, 0⟩
        ⟨none, 1, 5, none, 2⟩ false false =
      .error (.FlagCommentException "You must add a comment")) :=
  ⟨rfl, (comment_policy_enforced _ _ _ _ false false rfl
    (fun hst => absurd hst (by decide))).1 rfl rfl⟩

/-- A save of an already-persisted flag instance just rewrites its row: no check, no flag_added, no effects. -/
theorem FlagInstance_save_existing (s : FlagSettings) (db : Database)
    (fc : FlaggedContent) (fi : FlagInstance) (sg sm : Bool) (n : Nat)
    (hid : fi.id = some n) :
    FlagInstance.save s db fc fi sg sm =
      .ok ⟨fi, fc,
        { db with flags := db.flags.map (fun g => if g.id = fi.id then fi else g) },
        false, ⟨false, false, false⟩⟩ := by
  unfold FlagInstance.save
  rw [hid]
  simp

/-- Shape of `flag_added` on an aggregate with status 1: count incremented through a save, then the signal/mail effects. -/
theorem flag_added_status_one (s : FlagSettings) (db : Database)
    (fc : FlaggedContent) (sg sm : Bool) (hst : fc.status = 1)
    (hm : model_can_be_flagged s fc.contentType = true) :
    flag_added s db fc sg sm =
      .ok ({ fc with count := fc.count + 1 },
           updateContent db { fc with count := fc.count + 1 },
           ⟨sg, sm && s.SEND_MAILS && really_send_mails s (fc.count + 1),
            (sm && s.SEND_MAILS && really_send_mails s (fc.count + 1)) &&
              send_mails_dispatches s⟩) := by
  unfold flag_added
  rw [if_pos hst, FlaggedContent_save_of_ok s { fc with count := fc.count + 1 } hm]

/-- Shape of `flag_added` on an aggregate whose status is not 1: no increment, only the signal/mail effects. -/
theorem flag_added_status_other (s : FlagSettings) (db : Database)
    (fc : FlaggedContent) (sg sm : Bool) (hst : fc.status ≠ 1) :
    flag_added s db fc sg sm =
      .ok (fc, db,
           ⟨sg, sm && s.SEND_MAILS && really_send_mails s fc.count,
            (sm && s.SEND_MAILS && really_send_mails s fc.count) &&
              send_mails_dispatches s⟩) := by
  unfold flag_added
  rw [if_neg hst]

/-- A failing limit assertion on a new status-1 instance propagates out of `FlagInstance.save`. -/
theorem FlagInstance_save_assert_err (s : FlagSettings) (db : Database)
    (fc : FlaggedContent) (fi : FlagInstance) (sg sm : Bool) (e : FlagException)
    (hnew : fi.id = none) (hst : fi.status = 1)
    (hA : assert_can_be_flagged_by_user s fc (contentFlags db fc.id) fi.user =
      .error e) :
    FlagInstance.save s db fc fi sg sm = .error e := by
  have hisnew : fi.id.isNone = true := by rw [hnew]; rfl
  simp [FlagInstance.save, hisnew, hst, hA]

/-- A required-but-missing comment fails the save of a new instance. -/
theorem FlagInstance_save_err1 (s : FlagSettings) (db : Database)
    (fc : FlaggedContent) (fi : FlagInstance) (sg sm : Bool)
    (hnew : fi.id = none)
    (hassert : fi.status = 1 →
      assert_can_be_flagged_by_user s fc (contentFlags db fc.id) fi.user = .ok ())
    (hb1 : (s.ALLOW_COMMENTS && !(pythonTruthyStr fi.comment)) = true) :
    FlagInstance.save s db fc fi sg sm =
      .error (.FlagCommentException "You must add a comment") := by
  have hisnew : fi.id.isNone = true := by rw [hnew]; rfl
  have hcheck1 : (if fi.status = 1 then
      assert_can_be_flagged_by_user s fc (contentFlags db fc.id) fi.user
    else Except.ok ()) = Except.ok () := by
    by_cases hst : fi.status = 1
    · rw [if_pos hst]; exact hassert hst
    · rw [if_neg hst]
  simp [FlagInstance.save, hisnew, hcheck1, hb1]

/-- A disallowed-but-present comment fails the save of a new instance. -/
theorem FlagInstance_save_err2 (s : FlagSettings) (db : Database)
    (fc : FlaggedContent) (fi : FlagInstance) (sg sm : Bool)
    (hnew : fi.id = none)
    (hassert : fi.status = 1 →
      assert_can_be_flagged_by_user s fc (contentFlags db fc.id) fi.user = .ok ())
    (hb1 : (s.ALLOW_COMMENTS && !(pythonTruthyStr fi.comment)) = false)
    (hb2 : (!s.ALLOW_COMMENTS && pythonTruthyStr fi.comment) = true) :
    FlagInstance.save s db fc fi sg sm =
      .error (.FlagCommentException "You are not allowed to add a comment") := by
  have hisnew : fi.id.isNone = true := by rw [hnew]; rfl
  have hcheck1 : (if fi.status = 1 then
      assert_can_be_flagged_by_user s fc (contentFlags db fc.id) fi.user
    else Except.ok ()) = Except.ok () := by
    by_cases hst : fi.status = 1
    · rw [if_pos hst]; exact hassert hst
    · rw [if_neg hst]
  simp [FlagInstance.save, hisnew, hcheck1, hb1, hb2]

/-- Shape of `FlagInstance.save` on a new instance whose checks pass: persist the row, then hand over to `flag_added`. -/
theorem FlagInstance_save_new (s : FlagSettings) (db : Database)
    (fc : FlaggedContent) (fi : FlagInstance) (sg sm : Bool)
    (hnew : fi.id = none)
    (hassert : fi.status = 1 →
      assert_can_be_flagged_by_user s fc (contentFlags db fc.id) fi.user = .ok ())
    (hb1 : (s.ALLOW_COMMENTS && !(pythonTruthyStr fi.comment)) = false)
    (hb2 : (!s.ALLOW_COMMENTS && pythonTruthyStr fi.comment) = false) :
    FlagInstance.save s db fc fi sg sm =
      match flag_added s
          { db with nextFlagId := db.nextFlagId + 1,
                    flags := db.flags ++ [{ fi with id := some db.nextFlagId }] }
          fc sg sm with
      | .error e => .error e
      | .ok (fc2, db3, eff) =>
        .ok ⟨{ fi with id := some db.nextFlagId }, fc2, db3, true, eff⟩ := by
  have hisnew : fi.id.isNone = true := by rw [hnew]; rfl
  have hcheck1 : (if fi.status = 1 then
      assert_can_be_flagged_by_user s fc (contentFlags db fc.id) fi.user
    else Except.ok ()) = Except.ok () := by
    by_cases hst : fi.status = 1
    · rw [if_pos hst]; exact hassert hst
    · rw [if_neg hst]
  simp [FlagInstance.save, hisnew, hcheck1, hb1, hb2]

/-- When the increment save fails, `flag_added` propagates its error. -/
theorem flag_added_save_error (s : FlagSettings) (db : Database)
    (fc : FlaggedContent) (sg sm : Bool) (e : FlagException)
    (hst : fc.status = 1)
    (hs : FlaggedContent.save s { fc with count := fc.count + 1 } = .error e) :
    flag_added s db fc sg sm = .error e := by
  unfold flag_added
  rw [if_pos hst, hs]

/-- Case analysis of a successful `flag_added`: either the aggregate had status 1 and its count grew by one, or it was left untouched. -/
theorem flag_added_ok_cases (s : FlagSettings) (db : Database)
    (fc : FlaggedContent) (sg sm : Bool) (fc2 : FlaggedContent) (db2 : Database)
    (eff : FlagEffects)
    (h : flag_added s db fc sg sm = .ok (fc2, db2, eff)) :
    (fc.status = 1 ∧ fc2 = { fc with count := fc.count + 1 } ∧
      db2 = updateContent db { fc with count := fc.count + 1 } ∧
      model_can_be_flagged s fc.contentType = true) ∨
    (fc.status ≠ 1 ∧ fc2 = fc ∧ db2 = db) := by
  by_cases hst : fc.status = 1
  · left
    cases hs : FlaggedContent.save s { fc with count := fc.count + 1 } with
    | error e =>
      rw [flag_added_save_error s db fc sg sm e hst hs] at h
      exact absurd h (by simp)
    | ok fc3 =>
      obtain ⟨hfc3, hm⟩ := FlaggedContent_save_ok hs
      rw [flag_added_status_one s db fc sg sm hst hm] at h
      cases h
      exact ⟨hst, rfl, rfl, hm⟩
  · right
    rw [flag_added_status_other s db fc sg sm hst] at h
    cases h
    exact ⟨hst, rfl, rfl⟩

/-- A successful save of a new instance always went through the persist step and invoked `flag_added` on the parent. -/
theorem FlagInstance_save_new_ok (s : FlagSettings) (db : Database)
    (fc : FlaggedContent) (fi : FlagInstance) (sg sm : Bool) (out : SaveOutcome)
    (hnew : fi.id = none)
    (h : FlagInstance.save s db fc fi sg sm = .ok out) :
    flag_added s
        { db with nextFlagId := db.nextFlagId + 1,
                  flags := db.flags ++ [{ fi with id := some db.nextFlagId }] }
        fc sg sm = .ok (out.content, out.db, out.effects) ∧
    out.flagInst = { fi with id := some db.nextFlagId } ∧
    out.flagAddedCalled = true := by
  have hassert : fi.status = 1 →
      assert_can_be_flagged_by_user s fc (contentFlags db fc.id) fi.user = .ok () := by
    intro hst
    cases hA : assert_can_be_flagged_by_user s fc (contentFlags db fc.id) fi.user with
    | error e =>
      rw [FlagInstance_save_assert_err s db fc fi sg sm e hnew hst hA] at h
      exact absurd h (by simp)
    | ok u => cases u; rfl
  by_cases hb1 : (s.ALLOW_COMMENTS && !(pythonTruthyStr fi.comment)) = true
  · rw [FlagInstance_save_err1 s db fc fi sg sm hnew hassert hb1] at h
    exact absurd h (by simp)
  · have hb1f : (s.ALLOW_COMMENTS && !(pythonTruthyStr fi.comment)) = false :=
      Bool.eq_false_iff.mpr hb1
    by_cases hb2 : (!s.ALLOW_COMMENTS && pythonTruthyStr fi.comment) = true
    · rw [FlagInstance_save_err2 s db fc fi sg sm hnew hassert hb1f hb2] at h
      exact absurd h (by simp)
    · have hb2f : (!s.ALLOW_COMMENTS && pythonTruthyStr fi.comment) = false :=
        Bool.eq_false_iff.mpr hb2
      rw [FlagInstance_save_new s db fc fi sg sm hnew hassert hb1f hb2f] at h
      cases hF : flag_added s
          { db with nextFlagId := db.nextFlagId + 1,
                    flags := db.flags ++ [{ fi with id := some db.nextFlagId }] }
          fc sg sm with
      | error e =>
        rw [hF] at h
        exact absurd h (by simp)
      | ok tri =>
        obtain ⟨fc2, db3, eff⟩ := tri
        rw [hF] at h
        simp only [] at h
        cases h
        exact ⟨rfl, rfl, rfl⟩

/-! C4 -/

/-- C4, amended: on a successful `FlagInstance.save`, the `flag_added`
hook was invoked if and only if the instance was new, regardless of its
status — the source calls the hook for every first persist, and only the
count increment inside it is conditional on the aggregate status. -/
theorem flag_added_called_iff_new :
    ∀ (s : FlagSettings) (db : Database) (fc : FlaggedContent) (fi : FlagInstance)
      (sg sm : Bool) (out : SaveOutcome),
      FlagInstance.save s db fc fi sg sm = .ok out →
      (out.flagAddedCalled = true ↔ fi.id = none) := by
  intro s db fc fi sg sm out h
  cases hid : fi.id with
  | none =>
    have hcalled := (FlagInstance_save_new_ok s db fc fi sg sm out hid h).2.2
    simp [hcalled]
  | some n =>
    rw [FlagInstance_save_existing s db fc fi sg sm n hid] at h
    cases h
    simp

/-- Counterexample to C4 as stated: a newly created flag instance with
status 2 still triggers `flag_added` (the save succeeds and the hook is
invoked), contradicting the claim that a non-status-1 creation never
triggers it. -/
theorem flag_added_called_for_status_two :
    ((⟨none, 1, 5, none, 2⟩ : FlagInstance).status ≠ 1) ∧
    ((⟨none, 1, 5, none, 2⟩ : FlagInstance).id = none) ∧
    (flagAddedWasCalled
      (FlagInstance.save ⟨none, none, none, false, false, [], "", [], [(1, "flagged")]⟩
        ⟨2, 1, [⟨1, "a.b", 7, none, 2, none, 0⟩], []⟩
        ⟨1, "a.b", 7, none, 2, none, 0⟩
        ⟨none, 1, 5, none, 2⟩ true false) = true) := by decide

/-- Witness for the amended C4 at a concrete new status-1 instance. -/
theorem flag_added_called_iff_new_witness :
    (FlagInstance.save ⟨none, none, none, false, false, [], "", [], [(1, "flagged")]⟩
        ⟨2, 1, [⟨1, "a.b", 7, none, 1, none, 0⟩], []⟩
        ⟨1, "a.b", 7, none, 1, none, 0⟩
        ⟨none, 1, 5, none, 1⟩ false false =
      .ok ⟨⟨some 1, 1, 5, none, 1⟩, ⟨1, "a.b", 7, none, 1, none, 1⟩,
        ⟨2, 2, [⟨1, "a.b", 7, none, 1, none, 1⟩], [⟨some 1, 1, 5, none, 1⟩]⟩,
        true, ⟨false, false, false⟩⟩) ∧
    ((⟨⟨some 1, 1, 5, none, 1⟩, ⟨1, "a.b", 7, none, 1, none, 1⟩,
        ⟨2, 2, [⟨1, "a.b", 7, none, 1, none, 1⟩], [⟨some 1, 1, 5, none, 1⟩]⟩,
        true, ⟨false, false, false⟩⟩ : SaveOutcome).flagAddedCalled = true ↔
      (⟨none, 1, 5, none, 1⟩ : FlagInstance).id = none) :=
  ⟨by decide,
   flag_added_called_iff_new ⟨none, none, none, false, false, [], "", [], [(1, "flagged")]⟩
     ⟨2, 1, [⟨1, "a.b", 7, none, 1, none, 0⟩], []⟩ ⟨1, "a.b", 7, none, 1, none, 0⟩
     ⟨none, 1, 5, none, 1⟩ false false
     ⟨⟨some 1, 1, 5, none, 1⟩, ⟨1, "a.b", 7, none, 1, none, 1⟩,
       ⟨2, 2, [⟨1, "a.b", 7, none, 1, none, 1⟩], [⟨some 1, 1, 5, none, 1⟩]⟩,
       true, ⟨false, false, false⟩⟩ (by decide)⟩

/-- For a flaggable model the `flag_added` cascade cannot fail. -/
theorem flag_added_never_errors (s : FlagSettings) (db : Database)
    (fc : FlaggedContent) (sg sm : Bool)
    (hm : model_can_be_flagged s fc.contentType = true) :
    ∀ e, flag_added s db fc sg sm ≠ .error e := by
  intro e
  by_cases hst : fc.status = 1
  · rw [flag_added_status_one s db fc sg sm hst hm]
    simp
  · rw [flag_added_status_other s db fc sg sm hst]
    simp

/-! C5 -/

/-- C5: on a new `FlagInstance`, the per-object/per-user limit assertion
runs exactly when the instance status is 1 — a failing assertion aborts
the save with the same exception, while an instance with any other status
is persisted without any limit check (for a flaggable model with an
acceptable comment), whatever the limit configuration and counts. -/
theorem limit_checks_iff_status_one :
    ∀ (s : FlagSettings) (db : Database) (fc : FlaggedContent) (fi : FlagInstance)
      (sg sm : Bool),
      (∀ e : FlagException, fi.id = none → fi.status = 1 →
        assert_can_be_flagged_by_user s fc (contentFlags db fc.id) fi.user =
          .error e →
        FlagInstance.save s db fc fi sg sm = .error e) ∧
      (fi.id = none → fi.status ≠ 1 → commentPolicyOk s fi = true →
        model_can_be_flagged s fc.contentType = true →
        savedOk (FlagInstance.save s db fc fi sg sm) = true) := by
  intro s db fc fi sg sm
  constructor
  · intro e hnew hst hA
    exact FlagInstance_save_assert_err s db fc fi sg sm e hnew hst hA
  · intro hnew hst hcp hm
    have hassert : fi.status = 1 →
        assert_can_be_flagged_by_user s fc (contentFlags db fc.id) fi.user = .ok () :=
      fun h => absurd h hst
    have hb1 : (s.ALLOW_COMMENTS && !(pythonTruthyStr fi.comment)) = false := by
      cases hca : s.ALLOW_COMMENTS <;> cases hcc : pythonTruthyStr fi.comment <;>
        simp_all [commentPolicyOk]
    have hb2 : (!s.ALLOW_COMMENTS && pythonTruthyStr fi.comment) = false := by
      cases hca : s.ALLOW_COMMENTS <;> cases hcc : pythonTruthyStr fi.comment <;>
        simp_all [commentPolicyOk]
    rw [FlagInstance_save_new s db fc fi sg sm hnew hassert hb1 hb2]
    cases hF : flag_added s
        { db with nextFlagId := db.nextFlagId + 1,
                  flags := db.flags ++ [{ fi with id := some db.nextFlagId }] }
        fc sg sm with
    | error e => exact absurd hF (flag_added_never_errors s _ fc sg sm hm e)
    | ok tri =>
      obtain ⟨a, b, c⟩ := tri
      simp [savedOk]

/-- Witness for C5: with both limits set to 1 and count 5, a status-1
flag is rejected while a status-2 flag on the same over-limit aggregate
is persisted. -/
theorem limit_checks_iff_status_one_witness :
    (assert_can_be_flagged_by_user ⟨none, some 1, some 1, false, false, [], "", [], []⟩
        ⟨1, "a.b", 7, none, 1, none, 5⟩
        (contentFlags ⟨2, 1, [⟨1, "a.b", 7, none, 1, none, 5⟩], []⟩ 1) 5 =
      .error (.ContentFlaggedEnoughException "Flag limit raised")) ∧
    (FlagInstance.save ⟨none, some 1, some 1, false, false, [], "", [], []⟩
        ⟨2, 1, [⟨1, "a.b", 7, none, 1, none, 5⟩], []⟩ ⟨1, "a.b", 7, none, 1, none, 5⟩
        ⟨none, 1, 5, none, 1⟩ false false =
      .error (.ContentFlaggedEnoughException "Flag limit raised")) ∧
    (savedOk (FlagInstance.save ⟨none, some 1, some 1, false, false, [], "", [], []⟩
        ⟨2, 1, [⟨1, "a.b", 7, none, 1, none, 5⟩], []⟩ ⟨1, "a.b", 7, none, 1, none, 5⟩
        ⟨none, 1, 5, none, 2⟩ false false) = true) :=
  ⟨by decide,
   (limit_checks_iff_status_one ⟨none, some 1, some 1, false, false, [], "", [], []⟩
      ⟨2, 1, [⟨1, "a.b", 7, none, 1, none, 5⟩], []⟩ ⟨1, "a.b", 7, none, 1, none, 5⟩
      ⟨none, 1, 5, none, 1⟩ false false).1
     (.ContentFlaggedEnoughException "Flag limit raised") rfl rfl (by decide),
   (limit_checks_iff_status_one ⟨none, some 1, some 1, false, false, [], "", [], []⟩
      ⟨2, 1, [⟨1, "a.b", 7, none, 1, none, 5⟩], []⟩ ⟨1, "a.b", 7, none, 1, none, 5⟩
      ⟨none, 1, 5, none, 2⟩ false false).2 rfl (by decide) rfl rfl⟩

/-! C6 -/

/-- C6, amended: re-saving an existing `FlagInstance` performs no limit
check, no comment check, no count increment, no signal and no mail — it
only rewrites the row; and a successful `FlaggedContent.save` never
changes the row (in particular no count change and no notification).
The model-flaggable validation, however, runs on every aggregate save,
new or not (see the counterexample). -/
theorem resave_skips_creation_behaviour :
    ∀ (s : FlagSettings) (db : Database) (fc : FlaggedContent) (fi : FlagInstance)
      (n : Nat) (sg sm : Bool),
      (fi.id = some n →
        FlagInstance.save s db fc fi sg sm =
          .ok ⟨fi, fc,
            { db with flags := db.flags.map (fun g => if g.id = fi.id then fi else g) },
            false, ⟨false, false, false⟩⟩) ∧
      (∀ fc2, FlaggedContent.save s fc = .ok fc2 → fc2 = fc) := by
  intro s db fc fi n sg sm
  exact ⟨fun hid => FlagInstance_save_existing s db fc fi sg sm n hid,
         fun fc2 h => (FlaggedContent_save_ok h).1⟩

/-- Counterexample to C6 as stated: saving an already-persisted
`FlaggedContent` (id 1, count 3) re-runs the model-flaggable validation
and fails with `ModelCannotBeFlaggedException` when the content type is
not in the configured `MODELS` allow-list, so a re-save does re-trigger
validation. -/
theorem flagged_content_resave_revalidates :
    FlaggedContent.save ⟨some ["foo.bar"], none, none, false, false, [], "", [], []⟩
        ⟨1, "app.model", 7, none, 1, none, 3⟩ =
      .error (.ModelCannotBeFlaggedException "This model cannot be flagged") := by
  decide

/-- Witness for the amended C6: an existing instance is re-saved with
maxed-out limits, a required comment missing, and signal/mail requested,
yet nothing but the row rewrite happens. -/
theorem resave_skips_creation_behaviour_witness :
    FlagInstance.save ⟨none, some 1, some 1, true, true, ["m@x"], "f@x", [(1, 1)], []⟩
        ⟨2, 9, [⟨1, "a.b", 7, none, 1, none, 5⟩], [⟨some 3, 1, 5, none, 1⟩]⟩
        ⟨1, "a.b", 7, none, 1, none, 5⟩ ⟨some 3, 1, 5, none, 1⟩ true true =
      .ok ⟨⟨some 3, 1, 5, none, 1⟩, ⟨1, "a.b", 7, none, 1, none, 5⟩,
        ⟨2, 9, [⟨1, "a.b", 7, none, 1, none, 5⟩], [⟨some 3, 1, 5, none, 1⟩]⟩,
        false, ⟨false, false, false⟩⟩ :=
  (resave_skips_creation_behaviour ⟨none, some 1, some 1, true, true, ["m@x"], "f@x",
      [(1, 1)], []⟩
    ⟨2, 9, [⟨1, "a.b", 7, none, 1, none, 5⟩], [⟨some 3, 1, 5, none, 1⟩]⟩
    ⟨1, "a.b", 7, none, 1, none, 5⟩ ⟨some 3, 1, 5, none, 1⟩ 3 true true).1 rfl

/-! C9 -/

/-- C9: `get_or_create_for_object` is idempotent — after any successful
call, a second call with the same content reference returns the very same
aggregate with `created = false` and an unchanged database, ignoring any
`content_creator` or `status` arguments supplied the second time. -/
theorem get_or_create_idempotent :
    ∀ (s : FlagSettings) (db : Database) (ct : String) (oid : Nat)
      (cr cr2 st st2 : Option Nat) (fc : FlaggedContent) (created : Bool)
      (db2 : Database),
      FlaggedContentManager.get_or_create_for_object s db ct oid cr st =
        .ok (fc, created, db2) →
      FlaggedContentManager.get_or_create_for_object s db2 ct oid cr2 st2 =
        .ok (fc, false, db2) := by
  intro s db ct oid cr cr2 st st2 fc created db2 h
  unfold FlaggedContentManager.get_or_create_for_object at h ⊢
  cases hf : db.contents.find? (matchesObject ct oid) with
  | some fc0 =>
    rw [hf] at h
    cases h
    rw [hf]
  | none =>
    simp only [hf] at h
    cases hs : FlaggedContent.save s
        { id := db.nextContentId, contentType := ct, objectId := oid,
          creator := cr, status := st.getD 1, moderator := none, count := 0 } with
    | error e =>
      simp [hs] at h
    | ok fc3 =>
      obtain ⟨hfc3, hm⟩ := FlaggedContent_save_ok hs
      subst hfc3
      simp only [hs] at h
      cases h
      have hplit : matchesObject ct oid
          ⟨db.nextContentId, ct, oid, cr, st.getD 1, none, 0⟩ = true := by
        simp [matchesObject]
      have hfind : ((db.contents ++
          [(⟨db.nextContentId, ct, oid, cr, st.getD 1, none, 0⟩ : FlaggedContent)]).find?
            (matchesObject ct oid)) =
          some ⟨db.nextContentId, ct, oid, cr, st.getD 1, none, 0⟩ := by
        rw [List.find?_append, hf, Option.none_or]
        exact List.find?_cons_of_pos _ hplit
      simp only [hfind]

/-- Witness for C9: create with creator 9 / status 2, then call again
with creator 4 / status 5 — the stored aggregate is returned unchanged. -/
theorem get_or_create_idempotent_witness :
    (FlaggedContentManager.get_or_create_for_object
        ⟨none, none, none, false, false, [], "", [], []⟩ Database.empty
        "a.b" 3 (some 9) (some 2) =
      .ok (⟨1, "a.b", 3, some 9, 2, none, 0⟩, true,
        ⟨2, 1, [⟨1, "a.b", 3, some 9, 2, none, 0⟩], []⟩)) ∧
    (FlaggedContentManager.get_or_create_for_object
        ⟨none, none, none, false, false, [], "", [], []⟩
        ⟨2, 1, [⟨1, "a.b", 3, some 9, 2, none, 0⟩], []⟩
        "a.b" 3 (some 4) (some 5) =
      .ok (⟨1, "a.b", 3, some 9, 2, none, 0⟩, false,
        ⟨2, 1, [⟨1, "a.b", 3, some 9, 2, none, 0⟩], []⟩)) :=
  ⟨by decide,
   get_or_create_idempotent ⟨none, none, none, false, false, [], "", [], []⟩
     Database.empty "a.b" 3 (some 9) (some 4) (some 2) (some 5)
     ⟨1, "a.b", 3, some 9, 2, none, 0⟩ true
     ⟨2, 1, [⟨1, "a.b", 3, some 9, 2, none, 0⟩], []⟩ (by decide)⟩

/-- The spec-side rule walk keeps its accumulator when every rule is above the count. -/
theorem spec_foldl_of_all_gt (count : Nat) (rules : List (Nat × Nat))
    (cur : Nat × Nat) (h : ∀ p ∈ rules, count < p.1) :
    rules.foldl (fun c p => if p.1 ≤ count then p else c) cur = cur := by
  induction rules generalizing cur with
  | nil => rfl
  | cons p rest ih =>
    rw [List.foldl_cons, if_neg (Nat.not_le.mpr (h p (by simp)))]
    exact ih cur (fun q hq => h q (by simp [hq]))

/-- On a rule list ordered by `min_count`, the break-style walk of the code selects the same rule as the full walk of the spec. -/
theorem selectRuleFrom_eq_foldl (count : Nat) (rules : List (Nat × Nat))
    (cur : Nat × Nat) (h : List.Pairwise (fun a b => a.1 ≤ b.1) rules) :
    selectRuleFrom count rules cur =
      rules.foldl (fun c p => if p.1 ≤ count then p else c) cur := by
  induction rules generalizing cur with
  | nil => rfl
  | cons p rest ih =>
    obtain ⟨hp, hrest⟩ := List.pairwise_cons.mp h
    obtain ⟨m, step⟩ := p
    by_cases hm : m ≤ count
    · rw [List.foldl_cons, if_pos hm]
      rw [show selectRuleFrom count ((m, step) :: rest) cur =
        selectRuleFrom count rest (m, step) from if_pos hm]
      exact ih (m, step) hrest
    · rw [List.foldl_cons, if_neg hm]
      rw [show selectRuleFrom count ((m, step) :: rest) cur = cur from if_neg hm]
      rw [spec_foldl_of_all_gt count rest cur]
      intro q hq
      have h1 := hp q hq
      omega

/-- On an ordered rule list, `selectRule` agrees with the spec-side selection. -/
theorem selectRule_eq_spec (rules : List (Nat × Nat)) (count : Nat)
    (h : List.Pairwise (fun a b => a.1 ≤ b.1) rules) :
    selectRule rules count = spec_select_rule rules count :=
  selectRuleFrom_eq_foldl count rules (0, 0) h

/-- Characterization of the `really_send_mails` decision on an ordered rule list. -/
theorem really_send_mails_iff (s : FlagSettings) (c : Nat)
    (h : List.Pairwise (fun a b => a.1 ≤ b.1) s.SEND_MAILS_RULES) :
    (really_send_mails s c = true ↔
      (object_limit_reached s c = true ∨
        spec_rule_fires s.SEND_MAILS_RULES c = true)) := by
  unfold really_send_mails
  by_cases hl : object_limit_reached s c = true
  · simp [hl]
  · have hlf : object_limit_reached s c = false := Bool.eq_false_iff.mpr hl
    rw [hlf]
    simp only [Bool.false_eq_true, if_false]
    unfold spec_rule_fires
    rw [← selectRule_eq_spec s.SEND_MAILS_RULES c h]
    simp [hlf]

/-! C2 -/

/-- C2: in `flag_added` with mailing requested and enabled (and a
recipient list configured), the notification mail is dispatched iff the
truthy per-object limit is reached by the post-increment count, or the
ordered `SEND_MAILS_RULES` walk — tracking the last rule whose
`min_count ≤ count` — selects a rule with a step and
`(count - min_count) % step = 0`; and with rules `[(5,1),(10,5)]` and the
object limit not reached, mail is sent exactly at counts 5 through 9 and
at multiples of 5 from 10 on, never at 11 through 14. -/
theorem mail_threshold_rule :
    (∀ (s : FlagSettings) (db : Database) (fc fc2 : FlaggedContent) (db2 : Database)
        (eff : FlagEffects) (sg : Bool),
      s.SEND_MAILS = true → s.SEND_MAILS_TO ≠ [] →
      List.Pairwise (fun a b => a.1 ≤ b.1) s.SEND_MAILS_RULES →
      flag_added s db fc sg true = .ok (fc2, db2, eff) →
      (eff.mailDispatched = true ↔
        (object_limit_reached s fc2.count = true ∨
          spec_rule_fires s.SEND_MAILS_RULES fc2.count = true))) ∧
    (∀ (s : FlagSettings) (c : Nat),
      s.SEND_MAILS_RULES = [(5, 1), (10, 5)] →
      object_limit_reached s c = false →
      (really_send_mails s c = true ↔
        ((5 ≤ c ∧ c < 10) ∨ (10 ≤ c ∧ (c - 10) % 5 = 0)))) := by
  constructor
  · intro s db fc fc2 db2 eff sg hsm hto hpw h
    have hne : s.SEND_MAILS_TO.isEmpty = false := by
      cases hx : s.SEND_MAILS_TO with
      | nil => exact absurd hx hto
      | cons a l => rfl
    have hdisp : eff.mailDispatched = really_send_mails s fc2.count := by
      by_cases hst : fc.status = 1
      · cases hs : FlaggedContent.save s { fc with count := fc.count + 1 } with
        | error e =>
          rw [flag_added_save_error s db fc sg true e hst hs] at h
          exact absurd h (by simp)
        | ok fc3 =>
          obtain ⟨_, hm⟩ := FlaggedContent_save_ok hs
          rw [flag_added_status_one s db fc sg true hst hm] at h
          cases h
          simp [send_mails_dispatches, hsm, hne]
      · rw [flag_added_status_other s db fc sg true hst] at h
        cases h
        simp [send_mails_dispatches, hsm, hne]
    rw [hdisp]
    exact really_send_mails_iff s fc2.count hpw
  · intro s c hrules hlim
    unfold really_send_mails
    rw [hlim]
    simp only [Bool.false_eq_true, if_false]
    rw [selectRule, hrules]
    by_cases h5 : 5 ≤ c
    · by_cases h10 : 10 ≤ c
      · rw [show selectRuleFrom c [(5, 1), (10, 5)] (0, 0) = (10, 5) from by
          simp [selectRuleFrom, h5, h10]]
        simp only [bne_iff_ne, ne_eq, beq_iff_eq, Bool.and_eq_true, decide_eq_true_eq]
        constructor
        · intro hmod
          exact Or.inr ⟨h10, hmod.2⟩
        · rintro (⟨_, hlt⟩ | ⟨_, hmod⟩)
          · omega
          · exact ⟨by omega, hmod⟩
      · rw [show selectRuleFrom c [(5, 1), (10, 5)] (0, 0) = (5, 1) from by
          simp [selectRuleFrom, h5, h10]]
        apply iff_of_true
        · simp [Nat.mod_one]
        · exact Or.inl ⟨h5, by omega⟩
    · rw [show selectRuleFrom c [(5, 1), (10, 5)] (0, 0) = (0, 0) from by
        simp [selectRuleFrom, h5]]
      apply iff_of_false
      · simp
      · omega

/-- Witness for C2 at count 5 with rules `[(5,1),(10,5)]`: the mail is
dispatched and the threshold condition holds. -/
theorem mail_threshold_rule_witness :
    ((⟨none, none, none, false, true, ["m@x"], "f@x", [(5, 1), (10, 5)], []⟩ :
        FlagSettings).SEND_MAILS = true) ∧
    (flag_added ⟨none, none, none, false, true, ["m@x"], "f@x", [(5, 1), (10, 5)], []⟩
        ⟨2, 1, [⟨1, "a.b", 2, none, 1, none, 4⟩], []⟩ ⟨1, "a.b", 2, none, 1, none, 4⟩
        false true =
      .ok (⟨1, "a.b", 2, none, 1, none, 5⟩, ⟨2, 1, [⟨1, "a.b", 2, none, 1, none, 5⟩], []⟩,
        ⟨false, true, true⟩)) ∧
    ((⟨false, true, true⟩ : FlagEffects).mailDispatched = true ↔
      (object_limit_reached
          ⟨none, none, none, false, true, ["m@x"], "f@x", [(5, 1), (10, 5)], []⟩ 5 = true ∨
        spec_rule_fires [(5, 1), (10, 5)] 5 = true)) :=
  ⟨rfl, by decide,
   mail_threshold_rule.1 ⟨none, none, none, false, true, ["m@x"], "f@x", [(5, 1), (10, 5)], []⟩
     ⟨2, 1, [⟨1, "a.b", 2, none, 1, none, 4⟩], []⟩ ⟨1, "a.b", 2, none, 1, none, 4⟩
     ⟨1, "a.b", 2, none, 1, none, 5⟩ ⟨2, 1, [⟨1, "a.b", 2, none, 1, none, 5⟩], []⟩
     ⟨false, true, true⟩ false rfl (by decide) (by decide) (by decide)⟩

/-- The status update of `add` never touches the row id. -/
theorem apply_status_id (s : FlagSettings) (u : Nat) (fc : FlaggedContent)
    (st : Option Nat) : (apply_status s u fc st).id = fc.id := by
  cases st with
  | none => rfl
  | some v =>
    by_cases h0 : v = 0
    · simp [apply_status, h0]
    · by_cases hd : v = default_status s
      · subst hd
        simp [apply_status, h0]
      · simp [apply_status, h0, hd]

/-- The status update of `add` never touches the count. -/
theorem apply_status_count (s : FlagSettings) (u : Nat) (fc : FlaggedContent)
    (st : Option Nat) : (apply_status s u fc st).count = fc.count := by
  cases st with
  | none => rfl
  | some v =>
    by_cases h0 : v = 0
    · simp [apply_status, h0]
    · by_cases hd : v = default_status s
      · subst hd
        simp [apply_status, h0]
      · simp [apply_status, h0, hd]

/-- The status update of `add` never touches the content type. -/
theorem apply_status_contentType (s : FlagSettings) (u : Nat) (fc : FlaggedContent)
    (st : Option Nat) : (apply_status s u fc st).contentType = fc.contentType := by
  cases st with
  | none => rfl
  | some v =>
    by_cases h0 : v = 0
    · simp [apply_status, h0]
    · by_cases hd : v = default_status s
      · subst hd
        simp [apply_status, h0]
      · simp [apply_status, h0, hd]

/-- After the status update of `add`, the instance status equals the aggregate status. -/
theorem inst_status_eq (s : FlagSettings) (u : Nat) (fc : FlaggedContent)
    (st : Option Nat) :
    inst_status (apply_status s u fc st) st = (apply_status s u fc st).status := by
  cases st with
  | none => rfl
  | some v =>
    by_cases h0 : v = 0
    · simp [inst_status, apply_status, h0]
    · by_cases hd : v = default_status s
      · subst hd
        simp [inst_status, apply_status, h0]
      · simp [inst_status, apply_status, h0, hd]

/-- Appending one flag row grows the status-1 tally of its aggregate by at most one. -/
theorem statusOneFlags_append (flags : List FlagInstance) (f : FlagInstance)
    (cid : Nat) :
    statusOneFlags (flags ++ [f]) cid =
      statusOneFlags flags cid +
        (if f.flaggedContentId = cid ∧ f.status = 1 then 1 else 0) := by
  unfold statusOneFlags
  rw [List.filter_append, List.length_append]
  congr 1
  by_cases h : f.flaggedContentId = cid ∧ f.status = 1
  · simp [h]
  · simp [h]

/-- No stored flag row points at a not-yet-allocated aggregate id. -/
theorem statusOneFlags_bound (flags : List FlagInstance) (n : Nat)
    (h : ∀ f ∈ flags, f.flaggedContentId < n) : statusOneFlags flags n = 0 := by
  unfold statusOneFlags
  rw [List.length_eq_zero, List.filter_eq_nil_iff]
  intro f hf
  simp only [decide_eq_true_eq, not_and]
  intro hcid
  exact absurd hcid (Nat.ne_of_lt (h f hf))

/-- Rewriting an aggregate row leaves the flag rows unchanged. -/
theorem updateContent_flags (db : Database) (fc : FlaggedContent) :
    (updateContent db fc).flags = db.flags := rfl

/-- Rewriting an aggregate row whose count matches its tally preserves the counter invariant. -/
theorem updateContent_inv (db : Database) (fcNew : FlaggedContent)
    (hinv : countInv db)
    (hcount : fcNew.count = statusOneFlags db.flags fcNew.id) :
    countInv (updateContent db fcNew) := by
  intro c2 hc2
  obtain ⟨c, hc, hceq⟩ := List.mem_map.mp hc2
  by_cases hcid : c.id = fcNew.id
  · rw [if_pos hcid] at hceq
    subst hceq
    exact hcount
  · rw [if_neg hcid] at hceq
    subst hceq
    exact hinv c hc

/-- Rewriting an aggregate row by id preserves well-formedness and the other rows. -/
theorem updateContent_wf (db : Database) (fcOld fcNew : FlaggedContent)
    (hmem : fcOld ∈ db.contents) (hid : fcNew.id = fcOld.id) (hwf : wfDb db) :
    wfDb (updateContent db fcNew) ∧
    fcNew ∈ (updateContent db fcNew).contents ∧
    (∀ c ∈ db.contents, c.id ≠ fcNew.id → c ∈ (updateContent db fcNew).contents) := by
  obtain ⟨hw1, hw2, hw3⟩ := hwf
  refine ⟨⟨?_, ?_, hw3⟩, ?_, ?_⟩
  · intro c2 hc2
    obtain ⟨c, hc, hceq⟩ := List.mem_map.mp hc2
    by_cases hcid : c.id = fcNew.id
    · rw [if_pos hcid] at hceq
      subst hceq
      rw [hid]
      exact hw1 fcOld hmem
    · rw [if_neg hcid] at hceq
      subst hceq
      exact hw1 c hc
  · intro c2 hc2 c3 hc3 heq
    obtain ⟨c, hc, hceq⟩ := List.mem_map.mp hc2
    obtain ⟨d, hd, hdeq⟩ := List.mem_map.mp hc3
    by_cases hcid : c.id = fcNew.id <;> by_cases hdid : d.id = fcNew.id
    · rw [if_pos hcid] at hceq
      rw [if_pos hdid] at hdeq
      rw [← hceq, ← hdeq]
    · rw [if_pos hcid] at hceq
      rw [if_neg hdid] at hdeq
      subst hceq
      subst hdeq
      exact absurd heq.symm hdid
    · rw [if_neg hcid] at hceq
      rw [if_pos hdid] at hdeq
      subst hceq
      subst hdeq
      exact absurd heq hcid
    · rw [if_neg hcid] at hceq
      rw [if_neg hdid] at hdeq
      subst hceq
      subst hdeq
      exact hw2 c hc d hd heq
  · exact List.mem_map.mpr ⟨fcOld, hmem, by rw [if_pos hid.symm]⟩
  · intro c hc hcid
    exact List.mem_map.mpr ⟨c, hc, by rw [if_neg hcid]⟩

/-- Inserting a flag row pointing at an allocated aggregate preserves well-formedness. -/
theorem append_flag_wf (db : Database) (fi : FlagInstance)
    (hwf : wfDb db) (hcid : fi.flaggedContentId < db.nextContentId) :
    wfDb { db with nextFlagId := db.nextFlagId + 1, flags := db.flags ++ [fi] } := by
  obtain ⟨h1, h2, h3⟩ := hwf
  refine ⟨h1, h2, ?_⟩
  intro f hf
  rcases List.mem_append.mp hf with hf2 | hf2
  · exact h3 f hf2
  · rw [List.mem_singleton] at hf2
    subst hf2
    exact hcid

/-- Inserting a flag row whose status is not 1 preserves the counter invariant. -/
theorem append_flag_inv_other (db : Database) (fi : FlagInstance)
    (hinv : countInv db) (hst : fi.status ≠ 1) :
    countInv { db with nextFlagId := db.nextFlagId + 1, flags := db.flags ++ [fi] } := by
  intro c hc
  have hrw := statusOneFlags_append db.flags fi c.id
  rw [if_neg (fun hcond => hst hcond.2), Nat.add_zero] at hrw
  calc c.count = statusOneFlags db.flags c.id := hinv c hc
    _ = statusOneFlags (db.flags ++ [fi]) c.id := hrw.symm

/-- What a successful `get_or_create_for_object` guarantees about the returned aggregate and the database. -/
theorem get_or_create_ok (s : FlagSettings) (db : Database) (ct : String) (oid : Nat)
    (cr st : Option Nat) (fc : FlaggedContent) (created : Bool) (db1 : Database)
    (hwf : wfDb db) (hinv : countInv db)
    (h : FlaggedContentManager.get_or_create_for_object s db ct oid cr st =
      .ok (fc, created, db1)) :
    wfDb db1 ∧ countInv db1 ∧ fc ∈ db1.contents ∧
    fc.count = targetCount db ct oid ∧
    db1.flags = db.flags ∧
    (∀ c ∈ db.contents, c ∈ db1.contents) := by
  unfold FlaggedContentManager.get_or_create_for_object at h
  cases hf : db.contents.find? (matchesObject ct oid) with
  | some fc0 =>
    rw [hf] at h
    cases h
    refine ⟨hwf, hinv, List.mem_of_find?_eq_some hf, ?_, rfl, fun c hc => hc⟩
    unfold targetCount
    rw [hf]
  | none =>
    simp only [hf] at h
    cases hs : FlaggedContent.save s
        { id := db.nextContentId, contentType := ct, objectId := oid,
          creator := cr, status := st.getD 1, moderator := none, count := 0 } with
    | error e => simp [hs] at h
    | ok fc3 =>
      obtain ⟨hfc3, hm⟩ := FlaggedContent_save_ok hs
      subst hfc3
      simp only [hs] at h
      cases h
      obtain ⟨hw1, hw2, hw3⟩ := hwf
      refine ⟨⟨?_, ?_, ?_⟩, ?_, ?_, ?_, rfl, ?_⟩
      · intro c hc
        rcases List.mem_append.mp hc with hc2 | hc2
        · exact Nat.lt_trans (hw1 c hc2) (Nat.lt_succ_self _)
        · rw [List.mem_singleton] at hc2
          subst hc2
          exact Nat.lt_succ_self _
      · intro c1 hc1 c2 hc2 heq
        rcases List.mem_append.mp hc1 with hm1 | hm1 <;>
          rcases List.mem_append.mp hc2 with hm2 | hm2
        · exact hw2 c1 hm1 c2 hm2 heq
        · rw [List.mem_singleton] at hm2
          subst hm2
          exact absurd heq (Nat.ne_of_lt (hw1 c1 hm1))
        · rw [List.mem_singleton] at hm1
          subst hm1
          exact absurd heq.symm (Nat.ne_of_lt (hw1 c2 hm2))
        · rw [List.mem_singleton] at hm1
          rw [List.mem_singleton] at hm2
          rw [hm1, hm2]
      · intro f hf
        exact Nat.lt_trans (hw3 f hf) (Nat.lt_succ_self _)
      · intro c hc
        rcases List.mem_append.mp hc with hc2 | hc2
        · exact hinv c hc2
        · rw [List.mem_singleton] at hc2
          subst hc2
          exact (statusOneFlags_bound db.flags db.nextContentId hw3).symm
      · exact List.mem_append.mpr (Or.inr (List.mem_singleton.mpr rfl))
      · unfold targetCount
        rw [hf]
      · intro c hc
        exact List.mem_append.mpr (Or.inl hc)

/-- Inserting a status-1 flag row and bumping the count of its aggregate restores the counter invariant. -/
theorem append_flag_inv_one (db : Database) (fcA : FlaggedContent) (fi : FlagInstance)
    (hinv : countInv db) (hmem : fcA ∈ db.contents)
    (hficid : fi.flaggedContentId = fcA.id) (hfist : fi.status = 1) :
    countInv (updateContent
      { db with nextFlagId := db.nextFlagId + 1, flags := db.flags ++ [fi] }
      { fcA with count := fcA.count + 1 }) := by
  intro c2 hc2
  obtain ⟨c, hc, hceq⟩ := List.mem_map.mp hc2
  by_cases hcid : c.id = ({ fcA with count := fcA.count + 1 } : FlaggedContent).id
  · rw [if_pos hcid] at hceq
    subst hceq
    show fcA.count + 1 = statusOneFlags (db.flags ++ [fi]) fcA.id
    have hone := statusOneFlags_append db.flags fi fcA.id
    rw [if_pos ⟨hficid, hfist⟩] at hone
    rw [hone, hinv fcA hmem]
  · rw [if_neg hcid] at hceq
    subst hceq
    show c.count = statusOneFlags (db.flags ++ [fi]) c.id
    have hone := statusOneFlags_append db.flags fi c.id
    rw [if_neg (fun hcond => hcid (hcond.1.symm.trans hficid)), Nat.add_zero] at hone
    rw [hone]
    exact hinv c hc

/-- Saving a new flag instance built for a stored aggregate preserves the invariants and bumps the count exactly when the status is 1. -/
theorem save_new_step (s : FlagSettings) (db : Database) (fc : FlaggedContent)
    (fi : FlagInstance) (sg sm : Bool) (out : SaveOutcome)
    (hwf : wfDb db) (hinv : countInv db) (hmem : fc ∈ db.contents)
    (hnew : fi.id = none) (hcid : fi.flaggedContentId = fc.id)
    (hstat : fi.status = fc.status)
    (h : FlagInstance.save s db fc fi sg sm = .ok out) :
    wfDb out.db ∧ countInv out.db ∧
    out.content.id = fc.id ∧ out.content.status = fc.status ∧
    out.flagInst.status = fc.status ∧
    out.content.count = fc.count + (if fc.status = 1 then 1 else 0) ∧
    (∀ c ∈ db.contents, c.id ≠ fc.id → c ∈ out.db.contents) ∧
    out.content ∈ out.db.contents := by
  obtain ⟨hFA, hfi, hcalled⟩ := FlagInstance_save_new_ok s db fc fi sg sm out hnew h
  have hwf3 : wfDb (Database.mk db.nextContentId (db.nextFlagId + 1) db.contents
      (db.flags ++ [FlagInstance.mk (some db.nextFlagId) fi.flaggedContentId
        fi.user fi.comment fi.status])) := by
    refine append_flag_wf db (FlagInstance.mk (some db.nextFlagId)
      fi.flaggedContentId fi.user fi.comment fi.status) hwf ?_
    show fi.flaggedContentId < db.nextContentId
    rw [hcid]
    exact hwf.1 fc hmem
  have hup := updateContent_wf (Database.mk db.nextContentId (db.nextFlagId + 1)
      db.contents (db.flags ++ [FlagInstance.mk (some db.nextFlagId)
        fi.flaggedContentId fi.user fi.comment fi.status]))
    fc { fc with count := fc.count + 1 } hmem rfl hwf3
  rcases flag_added_ok_cases s _ fc sg sm out.content out.db out.effects hFA with
    ⟨hst1, hoc, hodb, _⟩ | ⟨hstn, hoc, hodb⟩
  · refine ⟨?_, ?_, ?_, ?_, ?_, ?_, ?_, ?_⟩
    · rw [hodb]
      exact hup.1
    · rw [hodb]
      refine append_flag_inv_one db fc (FlagInstance.mk (some db.nextFlagId)
        fi.flaggedContentId fi.user fi.comment fi.status) hinv hmem ?_ ?_
      · exact hcid
      · exact hstat.trans hst1
    · rw [hoc]
    · rw [hoc]
    · rw [hfi]
      exact hstat
    · rw [hoc]
      show fc.count + 1 = fc.count + (if fc.status = 1 then 1 else 0)
      rw [if_pos hst1]
    · intro c hc hne
      rw [hodb]
      exact hup.2.2 c hc hne
    · rw [hoc, hodb]
      exact hup.2.1
  · refine ⟨?_, ?_, ?_, ?_, ?_, ?_, ?_, ?_⟩
    · rw [hodb]
      exact hwf3
    · rw [hodb]
      refine append_flag_inv_other db (FlagInstance.mk (some db.nextFlagId)
        fi.flaggedContentId fi.user fi.comment fi.status) hinv ?_
      show fi.status ≠ 1
      exact fun hx => hstn (hstat.symm.trans hx)
    · rw [hoc]
    · rw [hoc]
    · rw [hfi]
      exact hstat
    · rw [hoc]
      show fc.count = fc.count + (if fc.status = 1 then 1 else 0)
      rw [if_neg hstn, Nat.add_zero]
    · intro c hc hne
      rw [hodb]
      exact hc
    · rw [hoc, hodb]
      exact hmem

/-- One successful `add` preserves the invariants, leaves unrelated aggregates in place, and changes the target count by exactly the status-1 contribution of the new instance. -/
theorem add_step (s : FlagSettings) (db : Database) (u : Nat) (ct : String)
    (oid : Nat) (cr : Option Nat) (cm : Option String) (st : Option Nat)
    (sg sm : Bool) (out : SaveOutcome)
    (hwf : wfDb db) (hinv : countInv db)
    (h : FlagInstanceManager.add s db u ct oid cr cm st sg sm = .ok out) :
    wfDb out.db ∧ countInv out.db ∧
    out.flagInst.status = out.content.status ∧
    out.content.count =
      targetCount db ct oid + (if out.content.status = 1 then 1 else 0) ∧
    (∀ c ∈ db.contents, c.id ≠ out.content.id → c ∈ out.db.contents) ∧
    out.content ∈ out.db.contents := by
  unfold FlagInstanceManager.add at h
  cases hg : FlaggedContentManager.get_or_create_for_object s db ct oid cr st with
  | error e => simp [hg] at h
  | ok trip =>
    obtain ⟨fc1, created, db1⟩ := trip
    simp only [hg] at h
    obtain ⟨hwf1, hinv1, hmem1, hcount1, hflags1, hpres1⟩ :=
      get_or_create_ok s db ct oid cr st fc1 created db1 hwf hinv hg
    cases hs : FlaggedContent.save s (apply_status s u fc1 st) with
    | error e => simp [hs] at h
    | ok fc3 =>
      obtain ⟨hfc3, hmodel⟩ := FlaggedContent_save_ok hs
      subst hfc3
      simp only [hs] at h
      have hAid : (apply_status s u fc1 st).id = fc1.id := apply_status_id s u fc1 st
      have hAcount : (apply_status s u fc1 st).count = fc1.count :=
        apply_status_count s u fc1 st
      have hAinst : inst_status (apply_status s u fc1 st) st =
          (apply_status s u fc1 st).status := inst_status_eq s u fc1 st
      obtain ⟨hwf2, hmem2, hpres2⟩ :=
        updateContent_wf db1 fc1 (apply_status s u fc1 st) hmem1 hAid hwf1
      have hinv2 : countInv (updateContent db1 (apply_status s u fc1 st)) := by
        refine updateContent_inv db1 (apply_status s u fc1 st) hinv1 ?_
        rw [hAcount, hAid]
        exact hinv1 fc1 hmem1
      obtain ⟨hwfo, hinvo, hoid, host, hfist, hocount, hpreso, homem⟩ :=
        save_new_step s (updateContent db1 (apply_status s u fc1 st))
          (apply_status s u fc1 st)
          ⟨none, (apply_status s u fc1 st).id, u, cm,
            inst_status (apply_status s u fc1 st) st⟩
          sg sm out hwf2 hinv2 hmem2 rfl rfl hAinst h
      refine ⟨hwfo, hinvo, ?_, ?_, ?_, homem⟩
      · rw [hfist, host]
      · rw [host, hocount, hAcount, hcount1]
      · intro c hc hne
        rw [hoid] at hne
        exact hpreso c (hpres2 c (hpres1 c hc) hne) hne

/-- One add-flag request, successful or not, preserves well-formedness and the counter invariant. -/
theorem applyAdd_preserves (s : FlagSettings) (db : Database) (r : AddRequest)
    (hwf : wfDb db) (hinv : countInv db) :
    wfDb (applyAdd s db r) ∧ countInv (applyAdd s db r) := by
  unfold applyAdd
  cases hA : addFlagReq s db r with
  | error e => exact ⟨hwf, hinv⟩
  | ok out =>
    obtain ⟨h1, h2, _⟩ := add_step s db r.user r.contentType r.objectId r.creator
      r.comment r.status r.send_signal r.send_mails out hwf hinv hA
    exact ⟨h1, h2⟩

/-- Any sequence of add-flag requests preserves well-formedness and the counter invariant. -/
theorem runAdds_wf_inv (s : FlagSettings) (reqs : List AddRequest) (db : Database)
    (hwf : wfDb db) (hinv : countInv db) :
    wfDb (runAdds s db reqs) ∧ countInv (runAdds s db reqs) := by
  induction reqs generalizing db with
  | nil => exact ⟨hwf, hinv⟩
  | cons r rs ih =>
    have hstep := applyAdd_preserves s db r hwf hinv
    exact ih (applyAdd s db r) hstep.1 hstep.2

/-- The empty database is well-formed and satisfies the counter invariant. -/
theorem empty_wf_inv : wfDb Database.empty ∧ countInv Database.empty := by
  refine ⟨⟨?_, ?_, ?_⟩, ?_⟩
  · intro c hc
    cases hc
  · intro c1 hc1
    cases hc1
  · intro f hf
    cases hf
  · intro c hc
    cases hc

/-! C1 -/

/-- C1: starting from an empty store, after any sequence of add-flag
operations every aggregate satisfies `count` = number of its stored flag
instances with status 1; and each single successful add increments the
count of its target aggregate by exactly one when the created instance
has status 1, leaves it unchanged otherwise, preserves the invariant, and
leaves every other aggregate row untouched. -/
theorem count_invariant_add_flag :
    (∀ (s : FlagSettings) (reqs : List AddRequest),
      countInv (runAdds s Database.empty reqs)) ∧
    (∀ (s : FlagSettings) (db : Database) (r : AddRequest) (out : SaveOutcome),
      wfDb db → countInv db → addFlagReq s db r = .ok out →
      ((out.flagInst.status = 1 →
          out.content.count = targetCount db r.contentType r.objectId + 1) ∧
       (out.flagInst.status ≠ 1 →
          out.content.count = targetCount db r.contentType r.objectId) ∧
       countInv out.db ∧
       (∀ c ∈ db.contents, c.id ≠ out.content.id → c ∈ out.db.contents))) := by
  constructor
  · intro s reqs
    exact (runAdds_wf_inv s reqs Database.empty empty_wf_inv.1 empty_wf_inv.2).2
  · intro s db r out hwf hinv hA
    obtain ⟨hwfo, hinvo, hstat, hcount, hpres, hmemo⟩ :=
      add_step s db r.user r.contentType r.objectId r.creator r.comment r.status
        r.send_signal r.send_mails out hwf hinv hA
    refine ⟨?_, ?_, hinvo, hpres⟩
    · intro h1
      rw [hcount, if_pos (hstat.symm.trans h1)]
    · intro h1
      rw [hcount, if_neg (fun hx => h1 (hstat.trans hx)), Nat.add_zero]

/-- Witness for C1: the first add on an empty store yields a status-1
instance and a count of `targetCount` (0) plus one. -/
theorem count_invariant_add_flag_witness :
    (wfDb Database.empty) ∧ (countInv Database.empty) ∧
    (addFlagReq ⟨none, none, none, false, false, [], "", [], [(1, "flagged")]⟩
        Database.empty ⟨7, "a.b", 3, none, none, none, false, false⟩ =
      .ok ⟨⟨some 1, 1, 7, none, 1⟩, ⟨1, "a.b", 3, none, 1, none, 1⟩,
        ⟨2, 2, [⟨1, "a.b", 3, none, 1, none, 1⟩], [⟨some 1, 1, 7, none, 1⟩]⟩,
        true, ⟨false, false, false⟩⟩) ∧
    ((⟨⟨some 1, 1, 7, none, 1⟩, ⟨1, "a.b", 3, none, 1, none, 1⟩,
        ⟨2, 2, [⟨1, "a.b", 3, none, 1, none, 1⟩], [⟨some 1, 1, 7, none, 1⟩]⟩,
        true, ⟨false, false, false⟩⟩ : SaveOutcome).flagInst.status = 1 →
      (⟨⟨some 1, 1, 7, none, 1⟩, ⟨1, "a.b", 3, none, 1, none, 1⟩,
        ⟨2, 2, [⟨1, "a.b", 3, none, 1, none, 1⟩], [⟨some 1, 1, 7, none, 1⟩]⟩,
        true, ⟨false, false, false⟩⟩ : SaveOutcome).content.count =
        targetCount Database.empty "a.b" 3 + 1) :=
  ⟨by decide, by decide, by decide,
   (count_invariant_add_flag.2 ⟨none, none, none, false, false, [], "", [], [(1, "flagged")]⟩
      Database.empty ⟨7, "a.b", 3, none, none, none, false, false⟩
      ⟨⟨some 1, 1, 7, none, 1⟩, ⟨1, "a.b", 3, none, 1, none, 1⟩,
        ⟨2, 2, [⟨1, "a.b", 3, none, 1, none, 1⟩], [⟨some 1, 1, 7, none, 1⟩]⟩,
        true, ⟨false, false, false⟩⟩ (by decide) (by decide) (by decide)).1⟩
